import Mathlib

/-!
Shallow embedding of the Allergen Alert application.

The embedding covers the pieces of the repository that the verified claims
talk about: the string primitives used by the code (JavaScript lowercasing,
substring test, split, join), the allergen taxonomy and icon lookup from
`src/lib/constants.ts`, the profile-match highlighter from the report
component, the profile store hook, the barcode lookup route from
`src/app/api/barcode/route.ts`, and the product detail page analysis flow.
Network calls are modelled by passing the outcome of the call as an explicit
argument, together with a boolean recording whether the outbound call was
reached at all.
-/

/-- Lowercasing of a string, character by character: model of the JavaScript
`toLowerCase` for the ASCII strings this application handles. -/
def strLower (s : String) : String := String.mk (s.data.map Char.toLower)

/-- Splitting of a character list at a separator character: model of the
JavaScript `split` applied with a one-character separator. -/
def chSplit (c : Char) : List Char → List (List Char)
  | [] => [[]]
  | a :: rest =>
    let r := chSplit c rest
    if a == c then [] :: r
    else
      match r with
      | [] => [[a]]
      | g :: gs => (a :: g) :: gs

/-- Contiguous-substring test on character lists: true exactly when `needle`
occurs contiguously inside `hay`. -/
def isInfixCh (needle hay : List Char) : Bool :=
  (List.range (hay.length + 1)).any (fun i => needle.isPrefixOf (hay.drop i))

/-- Substring test on strings: `strIncludes hay needle` models the JavaScript
expression `hay.includes(needle)`. -/
def strIncludes (hay needle : String) : Bool := isInfixCh needle.data hay.data

/-- First token of a string split at spaces: model of the JavaScript
expression `name.split(' ')[0]`. -/
def firstSpaceToken (s : String) : String :=
  String.mk ((chSplit ' ' s.data).headD [])

/-- Join of a list of strings with a separator: model of the JavaScript
`Array.prototype.join`. -/
def joinSep (sep : String) : List String → String
  | [] => ""
  | [x] => x
  | x :: xs => x ++ sep ++ joinSep sep xs

/-- JavaScript truthiness of an optional string field: false for a missing
field and for the empty string. -/
def truthyOpt : Option String → Bool
  | none => false
  | some s => !(s == "")

/-- Model of the JavaScript fallback chain `a || b` where `a` is an optional
string field and `b` a string. -/
def jsOrElse (a : Option String) (b : String) : String :=
  match a with
  | some s => if s == "" then b else s
  | none => b

/-- Model of the JavaScript fallback chain `a || b` where both sides are
optional string values. -/
def jsOrOpt (a b : Option String) : Option String :=
  match a with
  | some s => if s == "" then b else some s
  | none => b

/-- Icons used by the allergen taxonomy in `src/lib/constants.ts` (imported
there from lucide-react), as an enumerated type. -/
inductive Icon where
  | Nut
  | Milk
  | Egg
  | Bean
  | Wheat
  | Fish
  | Shell
  | HelpCircle
deriving DecidableEq

/-- One entry of `COMMON_ALLERGENS_PROFILE` from `src/lib/constants.ts`. -/
structure AllergenInfo where
  id : String
  name : String
  icon : Icon
deriving DecidableEq

/-- The static allergen taxonomy `COMMON_ALLERGENS_PROFILE` from
`src/lib/constants.ts`, in declaration order. -/
def COMMON_ALLERGENS_PROFILE : List AllergenInfo := [
  { id := "peanuts", name := "Peanuts", icon := Icon.Nut },
  { id := "treeNuts", name := "Tree Nuts", icon := Icon.Nut },
  { id := "milk", name := "Milk (Dairy)", icon := Icon.Milk },
  { id := "eggs", name := "Eggs", icon := Icon.Egg },
  { id := "soy", name := "Soy", icon := Icon.Bean },
  { id := "wheat", name := "Wheat (Gluten)", icon := Icon.Wheat },
  { id := "fish", name := "Fish", icon := Icon.Fish },
  { id := "shellfish", name := "Shellfish", icon := Icon.Shell }]

/-- The `allergenIcons` record from `src/lib/constants.ts` as an association
list, in the declaration order of the object literal keys (the order a
JavaScript `for .. in` loop visits these non-numeric keys). -/
def allergenIconsList : List (String × Icon) := [
  ("peanuts", Icon.Nut), ("peanut", Icon.Nut), ("tree nuts", Icon.Nut),
  ("nuts", Icon.Nut), ("almond", Icon.Nut), ("walnut", Icon.Nut),
  ("cashew", Icon.Nut), ("pecan", Icon.Nut), ("pistachio", Icon.Nut),
  ("hazelnut", Icon.Nut), ("macadamia", Icon.Nut),
  ("milk", Icon.Milk), ("dairy", Icon.Milk), ("lactose", Icon.Milk),
  ("cheese", Icon.Milk), ("yogurt", Icon.Milk), ("butter", Icon.Milk),
  ("eggs", Icon.Egg), ("egg", Icon.Egg),
  ("soy", Icon.Bean), ("soybean", Icon.Bean), ("tofu", Icon.Bean),
  ("edamame", Icon.Bean),
  ("wheat", Icon.Wheat), ("gluten", Icon.Wheat), ("barley", Icon.Wheat),
  ("rye", Icon.Wheat),
  ("fish", Icon.Fish), ("salmon", Icon.Fish), ("tuna", Icon.Fish),
  ("cod", Icon.Fish),
  ("shellfish", Icon.Shell), ("shrimp", Icon.Shell), ("crab", Icon.Shell),
  ("lobster", Icon.Shell), ("molluscs", Icon.Shell),
  ("default", Icon.HelpCircle)]

/-- Lookup of a key in the icon record: model of `allergenIcons[key]`. Every
key the source actually looks up is present; the sentinel icon stands in for
the unreachable missing-key case. -/
def allergenIconsGet (key : String) : Icon :=
  match allergenIconsList.find? (fun p => p.1 == key) with
  | some p => p.2
  | none => Icon.HelpCircle

/-- The loop body of `getAllergenIcon` from `src/lib/constants.ts`: walk the
record keys in declaration order and return the record entry of the first key
contained in the (already lowercased) input. After the loop the source
returns the record entry of the key `default`. -/
def getAllergenIconLoop (lower : String) : List (String × Icon) → Icon
  | [] => allergenIconsGet "default"
  | p :: rest =>
    if strIncludes lower p.1 then allergenIconsGet p.1
    else getAllergenIconLoop lower rest

/-- Model of `getAllergenIcon` from `src/lib/constants.ts`. -/
def getAllergenIcon (allergenName : String) : Icon :=
  getAllergenIconLoop (strLower allergenName) allergenIconsList

/-- Model of `isUserAllergicToDetected` from the report component: a detected
allergen name matches the user profile when some taxonomy category whose id is
in the profile has a display name whose first space-delimited token, once
lowercased, occurs inside the lowercased detected name. -/
def isUserAllergicToDetected (userProfileAllergenIds : List String)
    (allergenName : String) : Bool :=
  COMMON_ALLERGENS_PROFILE.any (fun profileAllergen =>
    userProfileAllergenIds.contains profileAllergen.id &&
      strIncludes (strLower allergenName)
        (strLower (firstSpaceToken profileAllergen.name)))

/-- The list the report component renders: each detected allergen name paired
with its profile-match flag. -/
def highlightMatches (allergensList userProfileAllergenIds : List String) :
    List (String × Bool) :=
  allergensList.map (fun a => (a, isUserAllergicToDetected userProfileAllergenIds a))

/-- Model of `addUserAllergen` from the profile store hook: append the id
unless it is already present. -/
def addUserAllergen (prev : List String) (allergenId : String) : List String :=
  if !(prev.contains allergenId) then prev ++ [allergenId] else prev

/-- Model of `removeUserAllergen` from the profile store hook: keep the ids
different from the removed one. -/
def removeUserAllergen (prev : List String) (allergenId : String) : List String :=
  prev.filter (fun item => item != allergenId)

/-- Model of `isUserAllergicTo` from the profile store hook. -/
def isUserAllergicTo (userAllergens : List String) (allergenId : String) : Bool :=
  userAllergens.contains allergenId

/-- Model of `getSerializedProfile` from the profile store hook: the
JavaScript expression `userAllergens.join(', ')`. -/
def getSerializedProfile (userAllergens : List String) : String :=
  joinSep ", " userAllergens

/-- Profile states reachable from the empty profile through the two mutation
operations of the profile store hook. -/
inductive ReachableProfile : List String → Prop where
  | empty : ReachableProfile []
  | add (s : List String) (id : String) :
      ReachableProfile s → ReachableProfile (addUserAllergen s id)
  | remove (s : List String) (id : String) :
      ReachableProfile s → ReachableProfile (removeUserAllergen s id)

/-- The optional upstream product fields the route reads, from the
`OpenFoodFactsProduct` interface in `src/app/api/barcode/route.ts`. -/
structure RawProduct where
  product_name : Option String
  product_name_en : Option String
  generic_name : Option String
  generic_name_en : Option String
  ingredients_text : Option String
  ingredients_text_en : Option String
deriving DecidableEq

/-- The decoded JSON body of an upstream lookup, from the same interface. -/
structure OpenFoodFactsResponse where
  status : Nat
  code : String
  product : Option RawProduct
  status_verbose : Option String
deriving DecidableEq

/-- Outcome of the outbound `fetch` in the route: a decoded 2xx body, a
non-2xx upstream status, or a thrown network error. -/
inductive FetchResult where
  | ok (data : OpenFoodFactsResponse)
  | httpError (status : Nat) (statusText : String)
  | networkFailure (message : String)
deriving DecidableEq

/-- Body of a successful route response. -/
structure SuccessBody where
  productName : String
  ingredients : String
  productDescription : Option String
  warning : Option String
deriving DecidableEq

/-- A route response: a success body, or an error body with an HTTP status. -/
inductive ApiResponse where
  | json (body : SuccessBody)
  | jsonError (status : Nat) (error : String)
deriving DecidableEq

/-- Error message of the 400 branch of the route. -/
def barcodeRequiredMsg : String := "Barcode query parameter is required"

/-- Warning message of the partial-success branch of the route. -/
def missingIngredientsWarning : String :=
  "Product found, but ingredients list is missing from the database. Please enter ingredients manually."

/-- Normalized product name, from the route:
`product.product_name_en || product.product_name || 'N/A'`. -/
def normProductName (p : RawProduct) : String :=
  jsOrElse p.product_name_en (jsOrElse p.product_name "N/A")

/-- Normalized ingredients text, from the route:
`product.ingredients_text_en || product.ingredients_text || ''`. -/
def normIngredients (p : RawProduct) : String :=
  jsOrElse p.ingredients_text_en (jsOrElse p.ingredients_text "")

/-- Normalized description, from the route:
`product.generic_name_en || product.generic_name || undefined`. -/
def normDescription (p : RawProduct) : Option String :=
  jsOrOpt p.generic_name_en (jsOrOpt p.generic_name none)

/-- Model of the route handler `GET` from `src/app/api/barcode/route.ts`.
The first argument is the `barcode` query parameter (`none` when absent), the
second the outcome of the outbound call to the upstream food database. The
returned boolean records whether execution reached that outbound call. -/
def GET (barcode : Option String) (upstream : FetchResult) : ApiResponse × Bool :=
  match barcode with
  | none => (ApiResponse.jsonError 400 barcodeRequiredMsg, false)
  | some bc =>
    if bc == "" then (ApiResponse.jsonError 400 barcodeRequiredMsg, false)
    else
      match upstream with
      | FetchResult.httpError status _ =>
        (ApiResponse.jsonError status
          ("Failed to fetch product data from Open Food Facts. Status: " ++ toString status), true)
      | FetchResult.networkFailure message =>
        (ApiResponse.jsonError 500
          ("Error: " ++ message ++ ". Please try again or enter details manually."), true)
      | FetchResult.ok data =>
        if data.status == 0 then
          (ApiResponse.jsonError 404
            ("Product with barcode " ++ bc ++ " not found in Open Food Facts. " ++
              data.status_verbose.getD "Please enter details manually."), true)
        else
          match data.product with
          | none =>
            (ApiResponse.jsonError 404
              ("Product with barcode " ++ bc ++ " not found in Open Food Facts. " ++
                data.status_verbose.getD "Please enter details manually."), true)
          | some product =>
            let productName := normProductName product
            let ingredients := normIngredients product
            let productDescription := normDescription product
            if ingredients == "" && !(productName == "N/A") then
              (ApiResponse.json
                { productName := productName, ingredients := "",
                  productDescription := productDescription,
                  warning := some missingIngredientsWarning }, true)
            else
              (ApiResponse.json
                { productName := productName, ingredients := ingredients,
                  productDescription := productDescription, warning := none }, true)

/-- Product data held by the product detail page. -/
structure ProductInfo where
  productName : String
  ingredients : String
  productDescription : Option String
  imageUrl : Option String
  barcode : String
deriving DecidableEq

/-- Input of the analysis engine, from the `AnalyzeProductAllergensInput`
type used by the product detail page. -/
structure AnalyzeProductAllergensInput where
  productName : String
  ingredients : String
  allergensProfile : String
  barcode : String
  productDescription : Option String
deriving DecidableEq

/-- Output of the analysis engine, from the `AnalyzeProductAllergensOutput`
type used by the product detail page and the report component. -/
structure AnalyzeProductAllergensOutput where
  containsAllergens : Bool
  safeToConsume : Bool
  allergensList : List String
  reasoning : String
deriving DecidableEq

/-- Modelled from the spec: the analysis engine `analyzeProductAllergens`
(the AI flow module) is not among the sources here, only its callers are.
Per the spec, section 4.4 step 4 and section 9, the engine forwards the
structured output of the reasoning backend and performs no reconciliation of
the triple containsAllergens, safeToConsume, allergensList before the caller
stores it. The reasoning backend is therefore an explicit parameter, and a
failing backend call is an `Except.error`. -/
def analyzeProductAllergens
    (backend : AnalyzeProductAllergensInput → Except String AnalyzeProductAllergensOutput)
    (input : AnalyzeProductAllergensInput) :
    Except String AnalyzeProductAllergensOutput :=
  backend input

/-- State of the product detail page after the analysis effect has settled:
the stored result, the stored analysis error, and whether the engine was
invoked at all. -/
structure AnalysisState where
  analysisResult : Option AnalyzeProductAllergensOutput
  errorAnalysis : Option String
  engineInvoked : Bool
deriving DecidableEq

/-- Error message the product detail page stores when product name or
ingredients are missing. -/
def missingInfoMsg : String :=
  "Product name or ingredients are missing. Cannot perform allergen analysis."

/-- The engine input the product detail page builds from the loaded product
and the serialized profile. -/
def pageInput (pi : ProductInfo) (serializedProfile : String) :
    AnalyzeProductAllergensInput :=
  { productName := pi.productName, ingredients := pi.ingredients,
    allergensProfile := serializedProfile, barcode := pi.barcode,
    productDescription := pi.productDescription }

/-- Model of the analysis effect of the product detail page
(`ProductDetailPage`): once product data and the profile are loaded, either
surface a missing-data error without touching the engine, or run the engine
and store its outcome. -/
def analysisEffect (productInfo : Option ProductInfo) (isProfileLoaded : Bool)
    (serializedProfile : String)
    (engine : AnalyzeProductAllergensInput → Except String AnalyzeProductAllergensOutput) :
    AnalysisState :=
  match productInfo with
  | none => { analysisResult := none, errorAnalysis := none, engineInvoked := false }
  | some pi =>
    if isProfileLoaded then
      if pi.productName == "" || pi.ingredients == "" then
        { analysisResult := none, errorAnalysis := some missingInfoMsg,
          engineInvoked := false }
      else
        match engine (pageInput pi serializedProfile) with
        | Except.ok result =>
          { analysisResult := some result, errorAnalysis := none, engineInvoked := true }
        | Except.error msg =>
          { analysisResult := none, errorAnalysis := some msg, engineInvoked := true }
    else { analysisResult := none, errorAnalysis := none, engineInvoked := false }

/-- The page renders the analysis error alert exactly when an analysis error
is stored. -/
def showsAnalysisErrorAlert (st : AnalysisState) : Bool := st.errorAnalysis.isSome

/-- The data-model invariant of an analysis result: an empty detected list
forces the contains flag off, and a cleared contains flag forces the safe
flag on. -/
def resultInvariant (r : AnalyzeProductAllergensOutput) : Prop :=
  (r.allergensList = [] → r.containsAllergens = false) ∧
    (r.containsAllergens = false → r.safeToConsume = true)

/-- Fixture: an upstream record whose stored product name is literally the
string used as placeholder by the route. -/
def rawProductNA : RawProduct :=
  { product_name := some "N/A", product_name_en := none, generic_name := none,
    generic_name_en := none, ingredients_text := none, ingredients_text_en := none }

/-- Fixture: an upstream record with a product name and no ingredients. -/
def rawProductOat : RawProduct :=
  { product_name := some "Oat Crackers", product_name_en := none, generic_name := none,
    generic_name_en := none, ingredients_text := none, ingredients_text_en := none }

/-- Fixture: an upstream record with every field present in both locales. -/
def rawProductEn : RawProduct :=
  { product_name := some "Nom", product_name_en := some "Name EN",
    generic_name := some "Desc", generic_name_en := some "Desc EN",
    ingredients_text := some "ing", ingredients_text_en := some "ing en" }

/-- Fixture: an upstream record with only default-locale fields present. -/
def rawProductDefaultOnly : RawProduct :=
  { product_name := some "Nom", product_name_en := none,
    generic_name := some "Desc", generic_name_en := none,
    ingredients_text := some "ing", ingredients_text_en := none }

/-- Fixture: an upstream record with every optional field absent. -/
def rawProductEmpty : RawProduct :=
  { product_name := none, product_name_en := none, generic_name := none,
    generic_name_en := none, ingredients_text := none, ingredients_text_en := none }

/-- Fixture: an internally inconsistent backend output, with an empty
detected list but the contains flag set. -/
def inconsistentOutput : AnalyzeProductAllergensOutput :=
  { containsAllergens := true, safeToConsume := true, allergensList := [],
    reasoning := "Flag set although the detected list is empty." }

/-- Fixture: a consistent backend output. -/
def consistentOutput : AnalyzeProductAllergensOutput :=
  { containsAllergens := false, safeToConsume := true, allergensList := [],
    reasoning := "No allergens found." }

/-- Fixture: loaded product data with non-empty name and ingredients. -/
def productInfoMilk : ProductInfo :=
  { productName := "Choco Bar", ingredients := "milk, sugar",
    productDescription := none, imageUrl := none, barcode := "456" }

/-- Fixture: loaded product data whose ingredients text is empty. -/
def productInfoNoIngredients : ProductInfo :=
  { productName := "Oat Crackers", ingredients := "", productDescription := none,
    imageUrl := none, barcode := "789" }

/-- Characterization of the substring test: `strIncludes hay needle` is true
exactly when the character data of `hay` decomposes around that of `needle`. -/
theorem strIncludes_iff (hay needle : String) :
    strIncludes hay needle = true ↔ ∃ l r, hay.data = l ++ needle.data ++ r := by
  unfold strIncludes isInfixCh
  rw [List.any_eq_true]
  constructor
  · rintro ⟨i, _hi, hpref⟩
    rw [List.isPrefixOf_iff_prefix] at hpref
    obtain ⟨t, ht⟩ := hpref
    refine ⟨hay.data.take i, t, ?_⟩
    calc hay.data = hay.data.take i ++ hay.data.drop i :=
          (List.take_append_drop i hay.data).symm
    _ = hay.data.take i ++ (needle.data ++ t) := by rw [ht]
    _ = hay.data.take i ++ needle.data ++ t := by rw [List.append_assoc]
  · rintro ⟨l, r, h⟩
    refine ⟨l.length, ?_, ?_⟩
    · rw [List.mem_range]
      have hlen : l.length ≤ hay.data.length := by
        rw [h]
        simp [List.length_append]
      omega
    · rw [List.isPrefixOf_iff_prefix, h, List.append_assoc, List.drop_left]
      exact ⟨r, rfl⟩

/-- C7: a lookup request whose barcode parameter is missing or empty gets the
400 validation error, and the second component false records that execution
never reached the outbound fetch, whatever the upstream would have said. -/
theorem C7_missing_barcode_400_no_fetch (upstream : FetchResult) :
    GET none upstream = (ApiResponse.jsonError 400 barcodeRequiredMsg, false) ∧
    GET (some "") upstream = (ApiResponse.jsonError 400 barcodeRequiredMsg, false) :=
  ⟨rfl, rfl⟩

/-- C8 counterexample: the profile store serializes with the two-character
delimiter comma-space, so on the profile [peanuts, milk] the result is not
the plain comma join the claim describes. -/
theorem C8_counterexample :
    getSerializedProfile ["peanuts", "milk"] = "peanuts, milk" ∧
    getSerializedProfile ["peanuts", "milk"] ≠ "peanuts,milk" := by
  exact ⟨rfl, by decide⟩

/-- The join helper agrees with the library intercalate, accumulator form. -/
theorem joinSep_go (sep : String) : ∀ (as : List String) (acc : String),
    String.intercalate.go acc sep as = joinSep sep (acc :: as) := by
  intro as
  induction as with
  | nil => intro acc; rfl
  | cons a as ih =>
    intro acc
    have hstep : String.intercalate.go acc sep (a :: as) =
        String.intercalate.go (acc ++ sep ++ a) sep as := rfl
    rw [hstep, ih]
    cases as with
    | nil => rfl
    | cons b bs =>
      show (acc ++ sep ++ a) ++ sep ++ joinSep sep (b :: bs) =
        acc ++ sep ++ (a ++ sep ++ joinSep sep (b :: bs))
      simp [String.append_assoc]

/-- C8 amended: serialize joins the stored ids, in order, with the delimiter
comma-space, that is, it coincides with the library intercalate at ", ". -/
theorem C8_amended_serialize_comma_space (ids : List String) :
    getSerializedProfile ids = String.intercalate ", " ids := by
  cases ids with
  | nil => rfl
  | cons a as =>
    show joinSep ", " (a :: as) = String.intercalate.go a ", " as
    rw [joinSep_go]

/-- C2: when the loaded product has an empty ingredients field, the analysis
effect of the product detail page never invokes the engine, stores no
analysis result, and, once the profile is loaded, stores and surfaces the
missing-data error instead. -/
theorem C2_empty_ingredients_skips_engine (pi : ProductInfo) (loaded : Bool)
    (profile : String)
    (engine : AnalyzeProductAllergensInput → Except String AnalyzeProductAllergensOutput)
    (h : pi.ingredients = "") :
    (analysisEffect (some pi) loaded profile engine).engineInvoked = false ∧
    (analysisEffect (some pi) loaded profile engine).analysisResult = none ∧
    (loaded = true →
      (analysisEffect (some pi) loaded profile engine).errorAnalysis = some missingInfoMsg ∧
      showsAnalysisErrorAlert (analysisEffect (some pi) loaded profile engine) = true) := by
  cases loaded
  · simp [analysisEffect]
  · simp [analysisEffect, h, showsAnalysisErrorAlert]

/-- C2 witness: the theorem applied to a concrete product with empty
ingredients, a concrete profile and a failing backend. -/
theorem C2_witness :
    (analysisEffect (some productInfoNoIngredients) true "milk"
      (fun _ => Except.error "backend down")).engineInvoked = false ∧
    (analysisEffect (some productInfoNoIngredients) true "milk"
      (fun _ => Except.error "backend down")).analysisResult = none ∧
    (analysisEffect (some productInfoNoIngredients) true "milk"
      (fun _ => Except.error "backend down")).errorAnalysis = some missingInfoMsg := by
  have h := C2_empty_ingredients_skips_engine productInfoNoIngredients true "milk"
    (fun _ => Except.error "backend down") rfl
  exact ⟨h.1, h.2.1, (h.2.2 rfl).1⟩

/-- C9: the profile store keeps the allergen list duplicate-free. Adding a
present id returns the state unchanged, adding a new id appends it at the
end, removal filters and therefore preserves duplicate-freedom and the
relative order of the remaining ids, and every state reachable from the
empty profile is duplicate-free. -/
theorem C9_profile_store_nodup :
    (∀ (prev : List String) (id : String),
      (prev.contains id = true → addUserAllergen prev id = prev) ∧
      (prev.contains id = false → addUserAllergen prev id = prev ++ [id])) ∧
    (∀ (prev : List String) (id : String), prev.Nodup →
      (removeUserAllergen prev id).Nodup) ∧
    (∀ (prev : List String) (id : String),
      (removeUserAllergen prev id).Sublist prev) ∧
    (∀ s, ReachableProfile s → s.Nodup) := by
  refine ⟨?_, ?_, ?_, ?_⟩
  · intro prev id
    constructor
    · intro h
      unfold addUserAllergen
      rw [h]
      rfl
    · intro h
      unfold addUserAllergen
      rw [h]
      rfl
  · intro prev id h
    exact h.filter _
  · intro prev id
    exact List.filter_sublist _
  · intro s hs
    induction hs with
    | empty => exact List.nodup_nil
    | add s id _ ih =>
      by_cases hm : id ∈ s
      · simpa [addUserAllergen, hm] using ih
      · simp [addUserAllergen, hm, List.nodup_append, List.disjoint_singleton, ih]
    | remove s id _ ih => exact ih.filter _

/-- C9 witness: the theorem applied to concrete profile states. -/
theorem C9_witness :
    addUserAllergen ["milk"] "milk" = ["milk"] ∧
    addUserAllergen ["milk"] "soy" = ["milk", "soy"] ∧
    (removeUserAllergen ["milk", "soy"] "milk").Nodup ∧
    List.Nodup ["milk", "soy"] := by
  refine ⟨?_, ?_, ?_, ?_⟩
  · exact (C9_profile_store_nodup.1 ["milk"] "milk").1 (by decide)
  · exact (C9_profile_store_nodup.1 ["milk"] "soy").2 (by decide)
  · exact C9_profile_store_nodup.2.1 ["milk", "soy"] "milk" (by decide)
  · exact C9_profile_store_nodup.2.2.2 _
      (ReachableProfile.add _ "soy" (ReachableProfile.add _ "milk" ReachableProfile.empty))

/-- C1 counterexample: with a reasoning backend that returns an internally
inconsistent triple, the pipeline stores that triple verbatim, so the stored
result violates the invariant the claim asserts to hold always. -/
theorem C1_counterexample :
    (analysisEffect (some productInfoMilk) true "milk"
      (analyzeProductAllergens (fun _ => Except.ok inconsistentOutput))).analysisResult =
      some inconsistentOutput ∧
    ¬ resultInvariant inconsistentOutput := by
  constructor
  · rfl
  · intro hinv
    have hfalse := hinv.1 rfl
    exact Bool.noConfusion hfalse

/-- C1 amended: after a successful engine call the page stores the raw
backend output unchanged, so the stored result satisfies the invariant
exactly when the backend output already does; no reconciliation step
enforces it. -/
theorem C1_amended_stored_is_raw_backend_output (pi : ProductInfo) (profile : String)
    (backend : AnalyzeProductAllergensInput → Except String AnalyzeProductAllergensOutput)
    (out : AnalyzeProductAllergensOutput)
    (hname : pi.productName ≠ "") (hing : pi.ingredients ≠ "")
    (hbackend : backend (pageInput pi profile) = Except.ok out) :
    (analysisEffect (some pi) true profile (analyzeProductAllergens backend)).analysisResult =
      some out ∧
    (resultInvariant out → ∀ r,
      (analysisEffect (some pi) true profile (analyzeProductAllergens backend)).analysisResult =
        some r → resultInvariant r) := by
  have hmain : (analysisEffect (some pi) true profile
      (analyzeProductAllergens backend)).analysisResult = some out := by
    simp [analysisEffect, analyzeProductAllergens, hname, hing, hbackend]
  refine ⟨hmain, fun hinv r hr => ?_⟩
  rw [hmain] at hr
  injection hr with h
  rw [← h]
  exact hinv

/-- C1 witness: the amended theorem applied to a concrete product and a
concrete backend with a consistent output. -/
theorem C1_witness :
    (analysisEffect (some productInfoMilk) true ""
      (analyzeProductAllergens (fun _ => Except.ok consistentOutput))).analysisResult =
      some consistentOutput := by
  exact (C1_amended_stored_is_raw_backend_output productInfoMilk ""
    (fun _ => Except.ok consistentOutput) consistentOutput (by decide) (by decide) rfl).1

/-- The icon loop agrees with the first entry found in declaration order. -/
theorem getAllergenIconLoop_eq (lower : String) (l : List (String × Icon)) :
    getAllergenIconLoop lower l =
      (match l.find? (fun p => strIncludes lower p.1) with
       | some p => allergenIconsGet p.1
       | none => allergenIconsGet "default") := by
  induction l with
  | nil => rfl
  | cons p rest ih =>
    cases hc : strIncludes lower p.1 with
    | true => simp [getAllergenIconLoop, List.find?_cons, hc]
    | false => simp [getAllergenIconLoop, List.find?_cons, hc, ih]

/-- Looking an entry of the icon record up by its own key gives its icon:
the record keys are pairwise distinct. -/
theorem allergenIconsGet_self : ∀ p ∈ allergenIconsList, allergenIconsGet p.1 = p.2 := by
  decide

/-- C4: the free-text icon lookup lowercases its input and returns the icon
of the first record entry, in declaration order, whose keyword occurs inside
the lowercased input; with no matching keyword it returns the sentinel
default icon; being a total function it never fails. The last conjunct pins
down the substring reading of the match test. -/
theorem C4_getAllergenIcon_first_match (s : String) :
    (∀ p : String × Icon,
      allergenIconsList.find? (fun q => strIncludes (strLower s) q.1) = some p →
        getAllergenIcon s = p.2) ∧
    (allergenIconsList.find? (fun q => strIncludes (strLower s) q.1) = none →
      getAllergenIcon s = Icon.HelpCircle) ∧
    (∀ key : String, strIncludes (strLower s) key = true ↔
      ∃ l r, (strLower s).data = l ++ key.data ++ r) := by
  refine ⟨?_, ?_, fun key => strIncludes_iff (strLower s) key⟩
  · intro p hp
    rw [getAllergenIcon, getAllergenIconLoop_eq, hp]
    exact allergenIconsGet_self p (List.mem_of_find?_eq_some hp)
  · intro h
    rw [getAllergenIcon, getAllergenIconLoop_eq, h]
    rfl

/-- C4 witness: on the input whole milk powder the first matching keyword is
milk, so the lookup returns the milk icon. -/
theorem C4_witness : getAllergenIcon "whole milk powder" = Icon.Milk := by
  exact (C4_getAllergenIcon_first_match "whole milk powder").1 ("milk", Icon.Milk)
    (by decide)

/-- C5: the highlighter flags a detected name exactly when some taxonomy
category whose id lies in the user profile has a display name whose first
space-delimited token, lowercased, occurs inside the lowercased detected
name; on the detected list [Milk, Soy] with profile [milk], exactly the Milk
entry is flagged. -/
theorem C5_highlighter_iff :
    (∀ (profile : List String) (name : String),
      isUserAllergicToDetected profile name = true ↔
        ∃ p ∈ COMMON_ALLERGENS_PROFILE, p.id ∈ profile ∧
          strIncludes (strLower name) (strLower (firstSpaceToken p.name)) = true) ∧
    highlightMatches ["Milk", "Soy"] ["milk"] = [("Milk", true), ("Soy", false)] := by
  constructor
  · intro profile name
    rw [isUserAllergicToDetected, List.any_eq_true]
    constructor
    · rintro ⟨p, hp, hcond⟩
      rw [Bool.and_eq_true] at hcond
      exact ⟨p, hp, List.elem_iff.mp hcond.1, hcond.2⟩
    · rintro ⟨p, hp, hmem, hinc⟩
      refine ⟨p, hp, ?_⟩
      rw [Bool.and_eq_true]
      exact ⟨List.elem_iff.mpr hmem, hinc⟩
  · decide

/-- A truthy field wins the JavaScript fallback chain. -/
theorem jsOrElse_truthy (s b : String) (h : s ≠ "") : jsOrElse (some s) b = s := by
  simp [jsOrElse, h]

/-- A falsy field loses the JavaScript fallback chain. -/
theorem jsOrElse_falsy (a : Option String) (b : String) (h : truthyOpt a = false) :
    jsOrElse a b = b := by
  cases a with
  | none => rfl
  | some s =>
    have hs : s = "" := by
      by_contra hne
      simp [truthyOpt, hne] at h
    simp [jsOrElse, hs]

/-- A truthy field wins the optional-valued fallback chain. -/
theorem jsOrOpt_truthy (s : String) (b : Option String) (h : s ≠ "") :
    jsOrOpt (some s) b = some s := by
  simp [jsOrOpt, h]

/-- A falsy field loses the optional-valued fallback chain. -/
theorem jsOrOpt_falsy (a b : Option String) (h : truthyOpt a = false) :
    jsOrOpt a b = b := by
  cases a with
  | none => rfl
  | some s =>
    have hs : s = "" := by
      by_contra hne
      simp [truthyOpt, hne] at h
    simp [jsOrOpt, hs]

/-- C6: each of the three normalized fields independently prefers the
English-localized upstream field when present and non-empty, falls back to
the default-locale field when that one is present and non-empty, and
otherwise falls back to the placeholder, the empty string, or absence. -/
theorem C6_normalization (raw : RawProduct) :
    (∀ s, raw.product_name_en = some s → s ≠ "" → normProductName raw = s) ∧
    (truthyOpt raw.product_name_en = false →
      ∀ s, raw.product_name = some s → s ≠ "" → normProductName raw = s) ∧
    (truthyOpt raw.product_name_en = false → truthyOpt raw.product_name = false →
      normProductName raw = "N/A") ∧
    (∀ s, raw.ingredients_text_en = some s → s ≠ "" → normIngredients raw = s) ∧
    (truthyOpt raw.ingredients_text_en = false →
      ∀ s, raw.ingredients_text = some s → s ≠ "" → normIngredients raw = s) ∧
    (truthyOpt raw.ingredients_text_en = false → truthyOpt raw.ingredients_text = false →
      normIngredients raw = "") ∧
    (∀ s, raw.generic_name_en = some s → s ≠ "" → normDescription raw = some s) ∧
    (truthyOpt raw.generic_name_en = false →
      ∀ s, raw.generic_name = some s → s ≠ "" → normDescription raw = some s) ∧
    (truthyOpt raw.generic_name_en = false → truthyOpt raw.generic_name = false →
      normDescription raw = none) := by
  refine ⟨?_, ?_, ?_, ?_, ?_, ?_, ?_, ?_, ?_⟩
  · intro s hs hne
    rw [normProductName, hs, jsOrElse_truthy _ _ hne]
  · intro hf s hs hne
    rw [normProductName, jsOrElse_falsy _ _ hf, hs, jsOrElse_truthy _ _ hne]
  · intro hf1 hf2
    rw [normProductName, jsOrElse_falsy _ _ hf1, jsOrElse_falsy _ _ hf2]
  · intro s hs hne
    rw [normIngredients, hs, jsOrElse_truthy _ _ hne]
  · intro hf s hs hne
    rw [normIngredients, jsOrElse_falsy _ _ hf, hs, jsOrElse_truthy _ _ hne]
  · intro hf1 hf2
    rw [normIngredients, jsOrElse_falsy _ _ hf1, jsOrElse_falsy _ _ hf2]
  · intro s hs hne
    rw [normDescription, hs, jsOrOpt_truthy _ _ hne]
  · intro hf s hs hne
    rw [normDescription, jsOrOpt_falsy _ _ hf, hs, jsOrOpt_truthy _ _ hne]
  · intro hf1 hf2
    rw [normDescription, jsOrOpt_falsy _ _ hf1, jsOrOpt_falsy _ _ hf2]

/-- C6 witness: the normalization applied to three concrete upstream
records, one per fallback level. -/
theorem C6_witness :
    normProductName rawProductEn = "Name EN" ∧
    normIngredients rawProductEn = "ing en" ∧
    normDescription rawProductEn = some "Desc EN" ∧
    normProductName rawProductDefaultOnly = "Nom" ∧
    normIngredients rawProductDefaultOnly = "ing" ∧
    normDescription rawProductDefaultOnly = some "Desc" ∧
    normProductName rawProductEmpty = "N/A" ∧
    normIngredients rawProductEmpty = "" ∧
    normDescription rawProductEmpty = none := by
  refine ⟨?_, ?_, ?_, ?_, ?_, ?_, ?_, ?_, ?_⟩
  · exact (C6_normalization rawProductEn).1 "Name EN" rfl (by decide)
  · exact (C6_normalization rawProductEn).2.2.2.1 "ing en" rfl (by decide)
  · exact (C6_normalization rawProductEn).2.2.2.2.2.2.1 "Desc EN" rfl (by decide)
  · exact (C6_normalization rawProductDefaultOnly).2.1 (by decide) "Nom" rfl (by decide)
  · exact (C6_normalization rawProductDefaultOnly).2.2.2.2.1 (by decide) "ing" rfl
      (by decide)
  · exact (C6_normalization rawProductDefaultOnly).2.2.2.2.2.2.2.1 (by decide) "Desc" rfl
      (by decide)
  · exact (C6_normalization rawProductEmpty).2.2.1 (by decide) (by decide)
  · exact (C6_normalization rawProductEmpty).2.2.2.2.2.1 (by decide) (by decide)
  · exact (C6_normalization rawProductEmpty).2.2.2.2.2.2.2.2 (by decide) (by decide)

/-- C3 counterexample: an upstream record whose stored product name is the
literal string used as placeholder. A product name was found and the
normalized ingredients text is empty, yet the route answers the plain
success body with no warning field. -/
theorem C3_counterexample :
    truthyOpt rawProductNA.product_name = true ∧
    normIngredients rawProductNA = "" ∧
    (GET (some "123") (FetchResult.ok ⟨1, "123", some rawProductNA, none⟩)).1 =
      ApiResponse.json ⟨"N/A", "", none, none⟩ := by
  refine ⟨by decide, by decide, by decide⟩

/-- C3 amended: on a found product, the success response carries the warning
field exactly when the normalized ingredients text is empty and the
normalized product name differs from the placeholder; in every other
success case the warning field is absent. -/
theorem C3_amended_warning_iff (bc cd : String) (st : Nat) (sv : Option String)
    (raw : RawProduct) (hbc : bc ≠ "") (hst : st ≠ 0) :
    (normIngredients raw = "" ∧ normProductName raw ≠ "N/A" →
      (GET (some bc) (FetchResult.ok ⟨st, cd, some raw, sv⟩)).1 =
        ApiResponse.json ⟨normProductName raw, "", normDescription raw,
          some missingIngredientsWarning⟩) ∧
    (normIngredients raw ≠ "" ∨ normProductName raw = "N/A" →
      (GET (some bc) (FetchResult.ok ⟨st, cd, some raw, sv⟩)).1 =
        ApiResponse.json ⟨normProductName raw, normIngredients raw,
          normDescription raw, none⟩) := by
  have hbc2 : (bc == "") = false := by
    rw [beq_eq_false_iff_ne]
    exact hbc
  have hst2 : (st == 0) = false := by
    rw [beq_eq_false_iff_ne]
    exact hst
  constructor
  · rintro ⟨hing, hname⟩
    have hcond : (normIngredients raw == "" && !(normProductName raw == "N/A")) = true := by
      simp [hing, hname]
    simp [GET, hbc2, hst2, hcond, hing, hname]
  · intro hno
    have hcond : (normIngredients raw == "" && !(normProductName raw == "N/A")) = false := by
      rcases hno with h | h
      · simp [h]
      · simp [h]
    rcases hno with h | h
    · simp [GET, hbc2, hst2, hcond, h]
    · simp [GET, hbc2, hst2, hcond, h]

/-- C3 witness: the amended theorem applied to a found product with a real
name and missing ingredients. -/
theorem C3_witness :
    (GET (some "123") (FetchResult.ok ⟨1, "123", some rawProductOat, none⟩)).1 =
      ApiResponse.json ⟨"Oat Crackers", "", none, some missingIngredientsWarning⟩ := by
  have h := (C3_amended_warning_iff "123" "123" 1 none rawProductOat
    (by decide) (by decide)).1 ⟨by decide, by decide⟩
  exact h.trans (by decide)

/-- C10: when the upstream record exists but every product name variant and
every ingredients variant is absent, the route answers a success body with
the placeholder name, empty ingredients, and no warning field. -/
theorem C10_no_name_no_warning (bc cd : String) (st : Nat) (sv : Option String)
    (raw : RawProduct) (hbc : bc ≠ "") (hst : st ≠ 0)
    (h1 : truthyOpt raw.product_name_en = false)
    (h2 : truthyOpt raw.product_name = false)
    (h3 : truthyOpt raw.ingredients_text_en = false)
    (h4 : truthyOpt raw.ingredients_text = false) :
    (GET (some bc) (FetchResult.ok ⟨st, cd, some raw, sv⟩)).1 =
      ApiResponse.json ⟨"N/A", "", normDescription raw, none⟩ := by
  have hname : normProductName raw = "N/A" := by
    rw [normProductName, jsOrElse_falsy _ _ h1, jsOrElse_falsy _ _ h2]
  have hing : normIngredients raw = "" := by
    rw [normIngredients, jsOrElse_falsy _ _ h3, jsOrElse_falsy _ _ h4]
  have hbc2 : (bc == "") = false := by
    rw [beq_eq_false_iff_ne]
    exact hbc
  have hst2 : (st == 0) = false := by
    rw [beq_eq_false_iff_ne]
    exact hst
  have hcond : (normIngredients raw == "" && !(normProductName raw == "N/A")) = false := by
    simp [hname]
  simp [GET, hbc2, hst2, hcond, hname, hing]

/-- C10 witness: the theorem applied to an upstream record with every
optional field absent. -/
theorem C10_witness :
    (GET (some "123") (FetchResult.ok ⟨1, "123", some rawProductEmpty, none⟩)).1 =
      ApiResponse.json ⟨"N/A", "", none, none⟩ := by
  have h := C10_no_name_no_warning "123" "123" 1 none rawProductEmpty
    (by decide) (by decide) (by decide) (by decide) (by decide) (by decide)
  exact h.trans (by decide)
